import Mathlib

/-!
Verification of the financial-consolidation backend.

Shallow embedding of the pipeline implemented in
`src/backend/app/services/consolidation_engine.py`,
`src/backend/app/services/import_service.py`,
`src/backend/app/services/ai_service.py`,
`src/backend/app/api/transactions.py` and `src/backend/app/api/reports.py`.
Monetary amounts are modelled as rationals; database rows are lists of
records; the "first active mapping" lookup is modelled as a function from
account ids to optional master-account ids.
-/

/-- The closed account-type enum of `app/models/consolidation.py`. -/
inductive AccountType
  | asset
  | liability
  | equity
  | revenue
  | expense
deriving DecidableEq, Repr

/-- The six totals computed by `ConsolidationEngine._calculate_financial_statements`. -/
structure Totals where
  totalAssets : ℚ
  totalLiabilities : ℚ
  totalEquity : ℚ
  totalRevenue : ℚ
  totalExpenses : ℚ
  netIncome : ℚ
deriving DecidableEq, Repr

def zeroTotals : Totals := ⟨0, 0, 0, 0, 0, 0⟩

/-- One iteration of the accumulation loop of `_calculate_financial_statements`:
the balance contributes `net` to assets and expenses and `abs net` to
liabilities, equity and revenue. -/
def accumulateBalance (t : Totals) (b : ℚ × AccountType) : Totals :=
  match b.2 with
  | .asset => { t with totalAssets := t.totalAssets + b.1 }
  | .liability => { t with totalLiabilities := t.totalLiabilities + |b.1| }
  | .equity => { t with totalEquity := t.totalEquity + |b.1| }
  | .revenue => { t with totalRevenue := t.totalRevenue + |b.1| }
  | .expense => { t with totalExpenses := t.totalExpenses + b.1 }

/-- `ConsolidationEngine._calculate_financial_statements`: accumulate per-master
net balances by account type, then set `net_income = revenue - expenses` and
close net income into equity. -/
def calculateFinancialStatements (balances : List (ℚ × AccountType)) : Totals :=
  let t := balances.foldl accumulateBalance zeroTotals
  let ni := t.totalRevenue - t.totalExpenses
  { t with netIncome := ni, totalEquity := t.totalEquity + ni }

/-- Spec-side definition: the sum of `net` over the balances of one account type. -/
def sumNetOfType (ty : AccountType) (bs : List (ℚ × AccountType)) : ℚ :=
  ((bs.filter (fun b => b.2 = ty)).map Prod.fst).sum

/-- Spec-side definition: the sum of `abs net` over the balances of one account type. -/
def sumAbsNetOfType (ty : AccountType) (bs : List (ℚ × AccountType)) : ℚ :=
  ((bs.filter (fun b => b.2 = ty)).map (fun b => |b.1|)).sum

/-- A ledger transaction as consumed by the consolidation engine
(`Transaction` rows restricted to the fields the engine reads). -/
structure Txn where
  companyId : Nat
  accountId : Nat
  debit : ℚ
  credit : ℚ
  fiscalYear : Nat
  fiscalPeriod : Nat
deriving DecidableEq, Repr

/-- The master-account ids reached by the transactions through an active
mapping (`am a = none` means account `a` has no active mapping), in the order
the aggregation loop first meets them. -/
def mappedMasterIds (am : Nat → Option Nat) (txns : List Txn) : List Nat :=
  (txns.filterMap (fun t => am t.accountId)).dedup

/-- The net balance (`debit - credit`) accumulated for one master account by
`_apply_mappings_and_aggregate`. -/
def netForMaster (am : Nat → Option Nat) (txns : List Txn) (mid : Nat) : ℚ :=
  ((txns.filter (fun t => am t.accountId = some mid)).map (fun t => t.debit - t.credit)).sum

/-- `ConsolidationEngine._apply_mappings_and_aggregate`: transactions whose
company account has an active mapping contribute to the balance of the mapped
master account; transactions of unmapped accounts are skipped. `mt` gives each
type of the master account. -/
def aggregate (am : Nat → Option Nat) (mt : Nat → AccountType) (txns : List Txn) :
    List (ℚ × AccountType) :=
  (mappedMasterIds am txns).map (fun mid => (netForMaster am txns mid, mt mid))

/-- `ConsolidationStatus` of `app/models/consolidation.py`. -/
inductive RunStatus
  | pending
  | processing
  | completed
  | failed
deriving DecidableEq, Repr

/-- The fields of a `ConsolidationRun` published on success and surfaced by
`ConsolidationResponse` (`app/api/consolidation.py`). -/
structure RunOutput where
  status : RunStatus
  totalAssets : ℚ
  totalLiabilities : ℚ
  totalEquity : ℚ
  totalRevenue : ℚ
  totalExpenses : ℚ
  netIncome : ℚ
  eliminationCount : Nat
deriving DecidableEq, Repr

/-- `ConsolidationEngine.run_consolidation`: filter the transactions of the period
of the included companies, aggregate through active mappings, apply the no-op
elimination hook, compute the financial statements, and mark the run
`completed`. No accounting-identity check is performed anywhere on this path. -/
def runConsolidation (am : Nat → Option Nat) (mt : Nat → AccountType)
    (companyIds : List Nat) (year period : Nat) (txns : List Txn) : RunOutput :=
  let filtered := txns.filter
    (fun t => t.companyId ∈ companyIds ∧ t.fiscalYear = year ∧ t.fiscalPeriod = period)
  let eliminations : List Unit := []
  let fin := calculateFinancialStatements (aggregate am mt filtered)
  { status := .completed
    totalAssets := fin.totalAssets
    totalLiabilities := fin.totalLiabilities
    totalEquity := fin.totalEquity
    totalRevenue := fin.totalRevenue
    totalExpenses := fin.totalExpenses
    netIncome := fin.netIncome
    eliminationCount := eliminations.length }

/-- The number of distinct company accounts among the given transactions that
have no active mapping. The spec says this quantity is reported by the
consolidation output as `unmapped_account_count`; the engine computes no such
value, so this definition exists only to state that claim. -/
def unmappedAccountCount (am : Nat → Option Nat) (txns : List Txn) : Nat :=
  ((txns.filter (fun t => am t.accountId = none)).map (fun t => t.accountId)).dedup.length

/-- The master-account type a transaction reaches through the mapping join used
by the report queries in `app/api/reports.py`. -/
def mappedMasterType (am : Nat → Option Nat) (mt : Nat → AccountType) (t : Txn) :
    Option AccountType :=
  (am t.accountId).map mt

/-- Revenue query of `reports.py`: sum of `credit - debit` over the
mapped REVENUE transactions of the exact fiscal period. -/
def reportRevenue (am : Nat → Option Nat) (mt : Nat → AccountType) (txns : List Txn)
    (cid year period : Nat) : ℚ :=
  ((txns.filter (fun t => t.companyId = cid ∧ mappedMasterType am mt t = some .revenue ∧
      t.fiscalYear = year ∧ t.fiscalPeriod = period)).map (fun t => t.credit - t.debit)).sum

/-- Expense query of `reports.py`: sum of `debit - credit` over the
mapped EXPENSE transactions of the exact fiscal period. -/
def reportExpenses (am : Nat → Option Nat) (mt : Nat → AccountType) (txns : List Txn)
    (cid year period : Nat) : ℚ :=
  ((txns.filter (fun t => t.companyId = cid ∧ mappedMasterType am mt t = some .expense ∧
      t.fiscalYear = year ∧ t.fiscalPeriod = period)).map (fun t => t.debit - t.credit)).sum

/-- Asset query of `reports.py`: sum of `debit - credit` over the
mapped ASSET transactions, cumulative over `fiscal_period <= period`. -/
def reportAssets (am : Nat → Option Nat) (mt : Nat → AccountType) (txns : List Txn)
    (cid year period : Nat) : ℚ :=
  ((txns.filter (fun t => t.companyId = cid ∧ mappedMasterType am mt t = some .asset ∧
      t.fiscalYear = year ∧ t.fiscalPeriod ≤ period)).map (fun t => t.debit - t.credit)).sum

/-- Liability query of `reports.py`: sum of `credit - debit` over the
mapped LIABILITY transactions, cumulative over `fiscal_period <= period`. -/
def reportLiabilities (am : Nat → Option Nat) (mt : Nat → AccountType) (txns : List Txn)
    (cid year period : Nat) : ℚ :=
  ((txns.filter (fun t => t.companyId = cid ∧ mappedMasterType am mt t = some .liability ∧
      t.fiscalYear = year ∧ t.fiscalPeriod ≤ period)).map (fun t => t.credit - t.debit)).sum

/-- One entry of `member_breakdowns` built by `export_to_excel` in `reports.py`. -/
structure MemberBreakdown where
  companyId : Nat
  revenue : ℚ
  expenses : ℚ
  netIncome : ℚ
  assets : ℚ
  liabilities : ℚ
  equity : ℚ
  ownershipPercentage : ℚ
  nciEquity : ℚ
  nciIncome : ℚ
deriving DecidableEq, Repr

/-- The per-company breakdown computed in `reports.py`: equity is
`assets - liabilities`, net income is `revenue - expenses`, and the NCI share
is `(100 - ownership_percentage) / 100` of each. -/
def buildMemberBreakdown (am : Nat → Option Nat) (mt : Nat → AccountType) (txns : List Txn)
    (cid : Nat) (ownershipPct : ℚ) (year period : Nat) : MemberBreakdown :=
  let revenue := reportRevenue am mt txns cid year period
  let expenses := reportExpenses am mt txns cid year period
  let assets := reportAssets am mt txns cid year period
  let liabilities := reportLiabilities am mt txns cid year period
  let equity := assets - liabilities
  let netIncome := revenue - expenses
  let nciPercentage := (100 - ownershipPct) / 100
  { companyId := cid
    revenue := revenue
    expenses := expenses
    netIncome := netIncome
    assets := assets
    liabilities := liabilities
    equity := equity
    ownershipPercentage := ownershipPct
    nciEquity := equity * nciPercentage
    nciIncome := netIncome * nciPercentage }

/-- `total_nci_equity` of the summary sheet: the NCI equity summed over the members. -/
def totalNciEquity (ms : List MemberBreakdown) : ℚ :=
  (ms.map (fun m => m.nciEquity)).sum

/-- The "Parent Equity" summary row of `reports.py`:
`run.total_equity - total_nci_equity`. -/
def parentEquityLine (runTotalEquity : ℚ) (ms : List MemberBreakdown) : ℚ :=
  runTotalEquity - totalNciEquity ms

/-- Whether `needle` matches the beginning of `hay`, character by character. -/
def headMatch : List Char → List Char → Bool
  | [], _ => true
  | _ :: _, [] => false
  | a :: as, b :: bs => a == b && headMatch as bs

/-- Whether `needle` occurs contiguously inside `hay` (the Python string operator in). -/
def containsSeq (needle : List Char) : List Char → Bool
  | [] => needle.isEmpty
  | b :: bs => headMatch needle (b :: bs) || containsSeq needle bs

/-- Python `needle in hay` for strings. -/
def strContains (hay needle : String) : Bool :=
  containsSeq needle.toList hay.toList

/-- Python `any(term in hay for term in terms)`. -/
def containsAny (hay : String) (terms : List String) : Bool :=
  terms.any (fun t => strContains hay t)

/-- ASCII whitespace, the cases `str.strip()` and `str.split()` act on here. -/
def isAsciiSpace (c : Char) : Bool :=
  c == ' ' || c == '\t' || c == '\n' || c == '\r'

/-- Python `str.strip()`. -/
def strTrim (s : String) : String :=
  ⟨((s.toList.dropWhile isAsciiSpace).reverse.dropWhile isAsciiSpace).reverse⟩

/-- Python `str.lower()` (ASCII as used by the account keywords). -/
def lowerStr (s : String) : String :=
  ⟨s.toList.map Char.toLower⟩

/-- Python `str.split()`: words separated by whitespace runs, no empties.
The first argument accumulates the current word in reverse. -/
def splitWordsAux : List Char → List Char → List (List Char)
  | acc, [] => if acc.isEmpty then [] else [acc.reverse]
  | acc, c :: cs =>
    if isAsciiSpace c then
      if acc.isEmpty then splitWordsAux [] cs
      else acc.reverse :: splitWordsAux [] cs
    else splitWordsAux (c :: acc) cs

/-- `ImportService.infer_account_type_from_number`: dispatch on a leading digit
(1 asset, 2 liability, 3 equity, 4 revenue, anything else expense), otherwise
match keywords in the lowercased identifier, defaulting to expense. -/
def inferAccountTypeFromNumber (accountNumber : String) : AccountType :=
  let s := strTrim accountNumber
  match s.toList with
  | [] => .expense
  | c :: _ =>
    if c.isDigit then
      if c = '1' then .asset
      else if c = '2' then .liability
      else if c = '3' then .equity
      else if c = '4' then .revenue
      else .expense
    else
      let l := lowerStr s
      if containsAny l ["cash", "receivable", "inventory", "asset", "equipment", "building"] then
        .asset
      else if containsAny l ["payable", "liability", "loan", "debt"] then .liability
      else if containsAny l ["equity", "capital", "retained"] then .equity
      else if containsAny l ["revenue", "sales", "income", "fees"] then .revenue
      else .expense

/-- A cell of the pivoted statement after pandas reads it: empty (`NaN`), text
that fails numeric coercion, or a numeric amount. -/
inductive Cell
  | blank
  | text (s : String)
  | num (q : ℚ)
deriving DecidableEq, Repr

def Cell.isNum : Cell → Bool
  | .num _ => true
  | _ => false

/-- The normal balance side of an account. -/
inductive BalanceSide
  | debit
  | credit
deriving DecidableEq, Repr

/-- `get_normal_balance_side` inside `_unpivot_financial_statement`: revenue,
liability and equity accounts are credit-normal; asset and expense accounts are
debit-normal. -/
def normalBalanceSide (accountNumber : String) : BalanceSide :=
  let ty := inferAccountTypeFromNumber accountNumber
  if ty = .revenue ∨ ty = .liability ∨ ty = .equity then .credit else .debit

/-- `assign_debit` of `_unpivot_financial_statement`. -/
def assignDebit (side : BalanceSide) (amount : ℚ) : ℚ :=
  match side with
  | .credit => if amount < 0 then |amount| else 0
  | .debit => if amount > 0 then amount else 0

/-- `assign_credit` of `_unpivot_financial_statement`. -/
def assignCredit (side : BalanceSide) (amount : ℚ) : ℚ :=
  match side with
  | .credit => if amount > 0 then amount else 0
  | .debit => if amount < 0 then |amount| else 0

/-- One output row of the unpivoter, with the traceability fields
`description = "<account> - <period>"` and `reference = <period>`. -/
structure UnpivotRow where
  accountNumber : String
  period : String
  debit : ℚ
  credit : ℚ
  description : String
  reference : String
deriving DecidableEq, Repr

/-- The per-cell step of `_unpivot_financial_statement`: null and unparseable
amounts are dropped (`dropna` before and after `to_numeric(errors="coerce")`);
a numeric amount is split into debit/credit by the normal side of the account. -/
def unpivotCell (account period : String) (c : Cell) : Option UnpivotRow :=
  match c with
  | .num q =>
    let side := normalBalanceSide account
    some { accountNumber := account
           period := period
           debit := assignDebit side q
           credit := assignCredit side q
           description := account ++ " - " ++ period
           reference := period }
  | _ => none

/-- `df.melt`: one long-form row per (account, period-column) cell, column-major
as pandas emits it. Each wide row is its first-column account name paired with
the cells under the period columns. -/
def meltGrid (rows : List (String × List Cell)) (periods : List String) :
    List (String × String × Cell) :=
  periods.enum.flatMap (fun pj =>
    rows.map (fun r => (r.1, pj.2, r.2.getD pj.1 Cell.blank)))

/-- `_unpivot_financial_statement` over a wide grid. -/
def unpivotFinancialStatement (rows : List (String × List Cell)) (periods : List String) :
    List UnpivotRow :=
  (meltGrid rows periods).filterMap (fun x => unpivotCell x.1 x.2.1 x.2.2)

/-- How the monetary amounts of a row arrive at `prepare_transactions`: explicit
debit/credit columns, a single mapped `amount` column, or neither. `none`
stands for a missing value (`NaN`), which both the validator and the preparer
coerce to 0. -/
inductive AmountSrc
  | debitCredit (debit credit : Option ℚ)
  | amountOnly (amount : Option ℚ)
  | noAmountCols
deriving DecidableEq, Repr

/-- The amount checks of `ImportService.validate_dataframe`, which run only
when the row has both a debit and a credit column: negative amounts, both
amounts zero, and both amounts positive each produce a structured error. -/
def amountValidationErrors : AmountSrc → List String
  | .debitCredit d c =>
    let dv := d.getD 0
    let cv := c.getD 0
    (if dv < 0 ∨ cv < 0 then ["Amounts cannot be negative"] else []) ++
    (if dv = 0 ∧ cv = 0 then ["Either debit or credit must be greater than 0"] else []) ++
    (if dv > 0 ∧ cv > 0 then ["Transaction cannot have both debit and credit"] else [])
  | _ => []

/-- The amount branch of `ImportService.prepare_transactions`: debit/credit
columns are taken as-is (missing values as 0); a single amount column is split
by sign (negative becomes a credit); with no amount column both stay 0. -/
def prepareAmounts : AmountSrc → ℚ × ℚ
  | .debitCredit d c => (d.getD 0, c.getD 0)
  | .amountOnly a =>
    let v := a.getD 0
    if v < 0 then (0, |v|) else (v, 0)
  | .noAmountCols => (0, 0)

/-- Exactly one of the two amounts is positive: the double-entry shape the
spec requires of every accepted row. -/
def exactlyOnePositive (d c : ℚ) : Prop :=
  (0 < d ∧ c = 0) ∨ (0 < c ∧ d = 0)

instance (d c : ℚ) : Decidable (exactlyOnePositive d c) := by
  unfold exactlyOnePositive
  infer_instance

/-- One parsed file row as `validate_dataframe` and `prepare_transactions` see
it: an optional date, an optional account number, and its amount columns.
Date strings are taken as parseable; unparseable dates are out of scope here. -/
structure ImportRow where
  date : Option String
  accountNumber : Option String
  amounts : AmountSrc
deriving DecidableEq, Repr

/-- The per-row checks of `validate_dataframe`: missing date, missing or blank
account number, then the amount checks. -/
def rowValidationErrors (r : ImportRow) : List String :=
  (if r.date = none then ["Date is required"] else []) ++
  (match r.accountNumber with
   | none => ["Account number is required"]
   | some s => if strTrim s = "" then ["Account number is required"] else []) ++
  amountValidationErrors r.amounts

/-- `ImportService.validate_dataframe`: an empty file is one structural error;
otherwise every row is validated independently and the per-row errors are
collected into one list, tagged with the spreadsheet row number (`idx + 2`). -/
def validateDataframe (rows : List ImportRow) : List (Nat × String) :=
  if rows = [] then [(0, "File is empty or contains no valid data rows")]
  else
    rows.enum.flatMap (fun ir =>
      (rowValidationErrors ir.2).map (fun e => (ir.1 + 2, e)))

/-- `prepare_transactions` on one row: skip with an error when the date or the
account number is missing or the account is not in the company lookup;
otherwise produce `(account_id, debit, credit)`. -/
def prepareRow (lookup : List (String × Nat)) (r : ImportRow) :
    Except String (Nat × ℚ × ℚ) :=
  match r.date with
  | none => .error "No date column found or date is missing - skipping row"
  | some _ =>
    match r.accountNumber with
    | none => .error "No account_number column found or account number is missing - skipping row"
    | some an =>
      match lookup.lookup (strTrim an) with
      | none => .error ("Account " ++ strTrim an ++ " not found in company")
      | some aid => .ok (aid, prepareAmounts r.amounts)

/-- `ImportService.prepare_transactions`: the accepted transactions and the
per-row errors (with spreadsheet row numbers), collected independently. -/
def prepareTransactions (lookup : List (String × Nat)) (rows : List ImportRow) :
    List (Nat × ℚ × ℚ) × List (Nat × String) :=
  (rows.filterMap (fun r => (prepareRow lookup r).toOption),
   rows.enum.filterMap (fun ir =>
     match prepareRow lookup ir.2 with
     | .error e => some (ir.1 + 2, e)
     | .ok _ => none))

/-- The `ImportResult` payload of the `/transactions/import` endpoint. -/
structure ImportOutcome where
  successCount : Nat
  errorCount : Nat
  totalRows : Nat
  insertedTxns : List (Nat × ℚ × ℚ)
  shownErrors : List (Nat × String)
deriving DecidableEq, Repr

/-- The control flow of `import_transactions` in `app/api/transactions.py`:
if `validate_dataframe` returns any error the endpoint returns immediately
with `success_count = 0` and inserts nothing; likewise if
`prepare_transactions` reports any error; only an error-free file reaches the
insertion loop, which inserts every prepared transaction. -/
def importTransactionsFlow (lookup : List (String × Nat)) (rows : List ImportRow) :
    ImportOutcome :=
  let ve := validateDataframe rows
  if ve = [] then
    let tp := prepareTransactions lookup rows
    if tp.2 = [] then
      { successCount := tp.1.length
        errorCount := 0
        totalRows := rows.length
        insertedTxns := tp.1
        shownErrors := [] }
    else
      { successCount := 0
        errorCount := tp.2.length
        totalRows := rows.length
        insertedTxns := []
        shownErrors := tp.2 }
  else
    { successCount := 0
      errorCount := ve.length
      totalRows := rows.length
      insertedTxns := []
      shownErrors := ve }

/-- One `AccountMapping` row, restricted to the fields the uniqueness claim
reads. -/
structure MappingRec where
  accountId : Nat
  masterId : Nat
  isActive : Bool
  source : String
deriving DecidableEq, Repr

/-- The auto-mapping step of `import_transactions` for one newly created
account: a suggested master with confidence at least 0.8 is activated
immediately with source `ai_auto`; otherwise the state is unchanged and the
account is added to `pending_mappings` (the Bool result). -/
def autoMapStep (s : List MappingRec) (acct : Nat) (suggestion : Option Nat)
    (confidence : ℚ) : List MappingRec × Bool :=
  match suggestion with
  | some mid =>
    if confidence ≥ 0.8 then (s ++ [⟨acct, mid, true, "ai_auto"⟩], false)
    else (s, true)
  | none => (s, true)

/-- The mapping-mutating operations of `app/api/transactions.py`: the
auto-mapping step of the import, and one approved decision of
`approve_mappings` ("accept", "select_different" and "create_new" all end in
the same mapping insertion). -/
inductive MapOp
  | importAutoMap (acct : Nat) (suggestion : Option Nat) (confidence : ℚ)
  | approve (acct : Nat) (masterId : Nat)

/-- What each operation does to the stored mappings. `approve_mappings`
inserts a new active `user_manual` mapping and deactivates nothing. -/
def applyOp (s : List MappingRec) : MapOp → List MappingRec
  | .importAutoMap acct suggestion confidence => (autoMapStep s acct suggestion confidence).1
  | .approve acct mid => s ++ [⟨acct, mid, true, "user_manual"⟩]

/-- A sequence of operations applied to a mapping store. -/
def applyOps (ops : List MapOp) (s : List MappingRec) : List MappingRec :=
  ops.foldl applyOp s

/-- The active mappings of one company account. -/
def activeMappingsFor (acct : Nat) (s : List MappingRec) : List MappingRec :=
  s.filter (fun m => m.accountId = acct ∧ m.isActive = true)

/-- An account as the fallback resolver of `ai_service.py` sees it. -/
structure AcctInfo where
  id : Nat
  accountNumber : String
  accountName : String
  acctType : AccountType
deriving DecidableEq, Repr

/-- Python `name.lower().split()` as a list of words. -/
def wordsOf (s : String) : List String :=
  (splitWordsAux [] (lowerStr s).toList).map (fun cs => ⟨cs⟩)

/-- Python `set(name.lower().split())`: the distinct words. -/
def wordSet (s : String) : List String :=
  (wordsOf s).dedup

/-- The keyword-association thesaurus of `_generate_fallback_mappings`. -/
def keywordAssociations : List (String × List String) :=
  [("cloud", ["utilities", "research", "development"]),
   ("infrastructure", ["research", "development", "utilities"]),
   ("api", ["professional", "services", "utilities"]),
   ("support", ["services", "professional"]),
   ("premium", ["services", "professional"]),
   ("software", ["research", "development"]),
   ("license", ["research", "development", "intangible"])]

/-- The association boost: 0.2 per distinct company-name word whose thesaurus
entry has at least one associated word occurring in the master name. -/
def assocBoost (compWords : List String) (masterName : String) : ℚ :=
  ((compWords.filter (fun w =>
      match keywordAssociations.lookup w with
      | some assocs => assocs.any (fun a => strContains masterName a)
      | none => false)).length : ℚ) * 0.2

/-- The similarity score of `_generate_fallback_mappings`: shared-word ratio
`|common| / max(|words_comp|, |words_master|)` when any word is shared, plus
0.3 when one lowercased name contains the other, plus the association boost. -/
def matchScore (compName masterName : String) : ℚ :=
  let cl := lowerStr compName
  let ml := lowerStr masterName
  let kc := wordSet compName
  let km := wordSet masterName
  let common := kc.filter (fun w => w ∈ km)
  let base := if common ≠ [] then (common.length : ℚ) / (max kc.length km.length : ℚ) else 0
  let sub := if strContains ml cl || strContains cl ml then (0.3 : ℚ) else 0
  base + sub + assocBoost kc ml

/-- The candidate loop of `_generate_fallback_mappings`: skip masters of a
different type, keep the strictly best score (ties resolve to the earliest
candidate). -/
def bestMatch (comp : AcctInfo) (masters : List AcctInfo) : Option AcctInfo × ℚ :=
  masters.foldl
    (fun acc m =>
      if m.acctType = comp.acctType then
        let sc := matchScore comp.accountName m.accountName
        if sc > acc.2 then (some m, sc) else acc
      else acc)
    (none, 0)

/-- The fallback of `_generate_fallback_mappings`: when no candidate scored
above 0, the first same-type master account is chosen with score 0.1. -/
def fallbackMatch (comp : AcctInfo) (masters : List AcctInfo) : Option (AcctInfo × ℚ) :=
  let bm := bestMatch comp masters
  let chosen :=
    if bm.1 = none ∨ bm.2 = 0 then
      match masters.filter (fun m => m.acctType = comp.acctType) with
      | [] => bm
      | m0 :: _ => (some m0, 0.1)
    else bm
  chosen.1.map (fun m => (m, chosen.2))

/-- The confidence formula of `_generate_fallback_mappings`:
`max(0.65, min(0.70 + score * 0.3, 0.98))`. -/
def confidenceOf (score : ℚ) : ℚ :=
  max 0.65 (min (0.7 + score * 0.3) 0.98)

/-- A fallback suggestion: the chosen master together with its confidence. -/
def fallbackSuggestion (comp : AcctInfo) (masters : List AcctInfo) :
    Option (AcctInfo × ℚ) :=
  (fallbackMatch comp masters).map (fun ms => (ms.1, confidenceOf ms.2))

theorem sumNetOfType_cons (ty : AccountType) (b : ℚ × AccountType) (bs : List (ℚ × AccountType)) :
    sumNetOfType ty (b :: bs) = (if b.2 = ty then b.1 else 0) + sumNetOfType ty bs := by
  simp only [sumNetOfType, List.filter_cons]
  by_cases h : b.2 = ty <;> simp [h]

theorem sumAbsNetOfType_cons (ty : AccountType) (b : ℚ × AccountType) (bs : List (ℚ × AccountType)) :
    sumAbsNetOfType ty (b :: bs) = (if b.2 = ty then |b.1| else 0) + sumAbsNetOfType ty bs := by
  simp only [sumAbsNetOfType, List.filter_cons]
  by_cases h : b.2 = ty <;> simp [h]

theorem foldl_accumulateBalance (bs : List (ℚ × AccountType)) (t : Totals) :
    bs.foldl accumulateBalance t =
      ⟨t.totalAssets + sumNetOfType .asset bs,
       t.totalLiabilities + sumAbsNetOfType .liability bs,
       t.totalEquity + sumAbsNetOfType .equity bs,
       t.totalRevenue + sumAbsNetOfType .revenue bs,
       t.totalExpenses + sumNetOfType .expense bs,
       t.netIncome⟩ := by
  induction bs generalizing t with
  | nil =>
    simp [sumNetOfType, sumAbsNetOfType]
  | cons b bs ih =>
    obtain ⟨q, ty⟩ := b
    cases ty <;>
      simp [List.foldl_cons, accumulateBalance, ih, sumNetOfType_cons, sumAbsNetOfType_cons] <;>
      ring

/-- C2: the consolidation calculator computes `total_assets` as the sum of `net`
over Asset accounts, `total_liabilities`, equity base and `total_revenue` as sums
of `abs net` over Liability, Equity and Revenue accounts, `total_expenses` as the
sum of `net` over Expense accounts, sets `net_income = total_revenue -
total_expenses`, and adds `net_income` into `total_equity` as the closing entry. -/
theorem calculateFinancialStatements_matches_spec_formulas (bs : List (ℚ × AccountType)) :
    calculateFinancialStatements bs =
      ⟨sumNetOfType .asset bs,
       sumAbsNetOfType .liability bs,
       sumAbsNetOfType .equity bs + (sumAbsNetOfType .revenue bs - sumNetOfType .expense bs),
       sumAbsNetOfType .revenue bs,
       sumNetOfType .expense bs,
       sumAbsNetOfType .revenue bs - sumNetOfType .expense bs⟩ := by
  simp [calculateFinancialStatements, foldl_accumulateBalance, zeroTotals]

theorem unpivotCell_blank (a p : String) : unpivotCell a p Cell.blank = none := rfl

theorem unpivotCell_text (a p s : String) : unpivotCell a p (Cell.text s) = none := rfl

theorem unpivotCell_num (a p : String) (q : ℚ) :
    unpivotCell a p (Cell.num q) =
      some ⟨a, p, assignDebit (normalBalanceSide a) q, assignCredit (normalBalanceSide a) q,
            a ++ " - " ++ p, p⟩ := rfl

theorem unpivot_length_aux (cells : List (String × String × Cell)) :
    (cells.filterMap (fun x => unpivotCell x.1 x.2.1 x.2.2)).length =
    (cells.filter (fun x => (x.2.2).isNum)).length := by
  induction cells with
  | nil => rfl
  | cons c cs ih =>
    obtain ⟨a, p, cell⟩ := c
    cases cell <;>
      simp [List.filterMap_cons, List.filter_cons, unpivotCell_blank, unpivotCell_text,
        unpivotCell_num, Cell.isNum, ih]

/-- C1: the engine publishes totals and marks the run Completed without ever
checking the accounting identity. On a period whose only mapped balance is an
asset of net 100 (its credit leg sits on an unmapped account), the run
completes with assets = 100 and liabilities + equity = 0, an identity
violation of 100 currency units that is silently accepted instead of failing
the run. -/
theorem completedRun_identity_violation_silently_accepted :
    runConsolidation (fun a => if a = 1 then some 10 else none) (fun _ => AccountType.asset)
        [1] 2024 1 [⟨1, 1, 100, 0, 2024, 1⟩, ⟨1, 2, 0, 100, 2024, 1⟩] =
      { status := .completed, totalAssets := 100, totalLiabilities := 0, totalEquity := 0,
        totalRevenue := 0, totalExpenses := 0, netIncome := 0, eliminationCount := 0 } ∧
    ¬ |(100 : ℚ) - (0 + 0)| < 1 := by
  constructor
  · simp [runConsolidation, aggregate, mappedMasterIds, netForMaster,
      calculateFinancialStatements, accumulateBalance, zeroTotals,
      List.filter, List.filterMap, List.dedup]
  · norm_num

/-- C3: every cell whose amount parses as a number yields exactly one unpivoted
row, split by the inferred normal side of the account: credit-normal accounts put a
positive amount into credit and the magnitude of a negative amount into debit,
debit-normal accounts the other way round; in particular "Cash" (Asset) with
1000 yields debit 1000 / credit 0 and "Accounts Payable" (Liability) with 500
yields credit 500 / debit 0. -/
theorem unpivot_splits_by_normal_side :
    (∀ (acct per : String) (a : ℚ), normalBalanceSide acct = BalanceSide.credit →
        unpivotCell acct per (Cell.num a) =
          some ⟨acct, per, if a < 0 then -a else 0, if a > 0 then a else 0,
                acct ++ " - " ++ per, per⟩) ∧
    (∀ (acct per : String) (a : ℚ), normalBalanceSide acct = BalanceSide.debit →
        unpivotCell acct per (Cell.num a) =
          some ⟨acct, per, if a > 0 then a else 0, if a < 0 then -a else 0,
                acct ++ " - " ++ per, per⟩) ∧
    (∀ (rows : List (String × List Cell)) (periods : List String),
        (unpivotFinancialStatement rows periods).length =
          ((meltGrid rows periods).filter (fun x => (x.2.2).isNum)).length) ∧
    inferAccountTypeFromNumber "Cash" = AccountType.asset ∧
    inferAccountTypeFromNumber "Accounts Payable" = AccountType.liability ∧
    unpivotCell "Cash" "Jan 2024" (Cell.num 1000) =
      some ⟨"Cash", "Jan 2024", 1000, 0, "Cash - Jan 2024", "Jan 2024"⟩ ∧
    unpivotCell "Accounts Payable" "Jan 2024" (Cell.num 500) =
      some ⟨"Accounts Payable", "Jan 2024", 0, 500, "Accounts Payable - Jan 2024", "Jan 2024"⟩ := by
  refine ⟨?_, ?_, ?_, by decide, by decide, by decide, by decide⟩
  · intro acct per a h
    simp only [unpivotCell, h, assignDebit, assignCredit]
    split_ifs with h1 h2 h2
    · simp [abs_of_neg h1]
    · simp [abs_of_neg h1]
    · simp
    · simp
  · intro acct per a h
    simp only [unpivotCell, h, assignDebit, assignCredit]
    split_ifs with h1 h2 h2
    · simp [abs_of_neg h2]
    · simp
    · simp [abs_of_neg h2]
    · simp
  · intro rows periods
    exact unpivot_length_aux (meltGrid rows periods)

/-- Witness for C3 at the example given in the claim: "Accounts Payable" is inferred
credit-normal and a 500 cell is split into credit 500 / debit 0. -/
theorem unpivot_splits_by_normal_side_witness :
    normalBalanceSide "Accounts Payable" = BalanceSide.credit ∧
    unpivotCell "Accounts Payable" "Jan 2024" (Cell.num 500) =
      some ⟨"Accounts Payable", "Jan 2024", if (500 : ℚ) < 0 then -(500 : ℚ) else 0,
            if (500 : ℚ) > 0 then (500 : ℚ) else 0,
            "Accounts Payable" ++ " - " ++ "Jan 2024", "Jan 2024"⟩ :=
  ⟨by decide, unpivot_splits_by_normal_side.1 "Accounts Payable" "Jan 2024" 500 (by decide)⟩

/-- C10: the unpivoter drops only null/blank cells and values that fail numeric
coercion; a cell that parses as numeric zero is kept and produces a row with
debit 0 and credit 0 for its account/period pair. -/
theorem zero_cell_not_dropped :
    (∀ acct per : String, unpivotCell acct per Cell.blank = none) ∧
    (∀ (acct per s : String), unpivotCell acct per (Cell.text s) = none) ∧
    (∀ acct per : String, unpivotCell acct per (Cell.num 0) =
        some ⟨acct, per, 0, 0, acct ++ " - " ++ per, per⟩) ∧
    (∀ acct per : String, unpivotFinancialStatement [(acct, [Cell.num 0])] [per] =
        [⟨acct, per, 0, 0, acct ++ " - " ++ per, per⟩]) := by
  have key : ∀ acct per : String, unpivotCell acct per (Cell.num 0) =
      some ⟨acct, per, 0, 0, acct ++ " - " ++ per, per⟩ := by
    intro acct per
    simp only [unpivotCell]
    cases h : normalBalanceSide acct <;> simp [assignDebit, assignCredit]
  refine ⟨fun _ _ => rfl, fun _ _ _ => rfl, key, ?_⟩
  intro acct per
  simp [unpivotFinancialStatement, meltGrid, List.enum, key acct per]

/-- C4 amended: the reported parent-equity line is defined as
`total_equity - Σ nci_equity`, so `parent_equity + Σ nci_equity == total_equity`
holds exactly; and per-member `nci_equity` is
`(assets - liabilities) * (100 - ownership_percentage) / 100`. The inequality
`Σ nci_equity ≤ total_equity` of the original claim does not hold in general
(see the counterexample): the per-member equity comes from cumulative per-company
queries that are independent of the `total_equity` stored on the run. -/
theorem parent_equity_nci_conservation :
    (∀ (runTotalEquity : ℚ) (ms : List MemberBreakdown),
        parentEquityLine runTotalEquity ms + totalNciEquity ms = runTotalEquity) ∧
    (∀ (am : Nat → Option Nat) (mt : Nat → AccountType) (txns : List Txn)
        (cid : Nat) (pct : ℚ) (year period : Nat),
        (buildMemberBreakdown am mt txns cid pct year period).nciEquity =
          (reportAssets am mt txns cid year period -
            reportLiabilities am mt txns cid year period) * ((100 - pct) / 100)) := by
  constructor
  · intro te ms
    simp [parentEquityLine]
  · intro am mt txns cid pct year period
    rfl

/-- C4 counterexample: company 1 (ownership 50%) has period-1 transactions
(debit 1000 to an asset-mapped account, credit 1000 to an equity-mapped
account). A consolidation run for period 2 sees no transactions and stores
total_equity = 0, while the cumulative member query of the report yields
equity = 1000 and nci_equity = 500, so `Σ nci_equity ≤ total_equity` fails. -/
theorem nci_sum_exceeds_total_equity_counterexample :
    totalNciEquity
        [buildMemberBreakdown (fun a => if a = 1 then some 10 else if a = 2 then some 20 else none)
          (fun m => if m = 10 then AccountType.asset else AccountType.equity)
          [⟨1, 1, 1000, 0, 2024, 1⟩, ⟨1, 2, 0, 1000, 2024, 1⟩] 1 50 2024 2] = 500 ∧
    (runConsolidation (fun a => if a = 1 then some 10 else if a = 2 then some 20 else none)
        (fun m => if m = 10 then AccountType.asset else AccountType.equity)
        [1] 2024 2 [⟨1, 1, 1000, 0, 2024, 1⟩, ⟨1, 2, 0, 1000, 2024, 1⟩]).totalEquity = 0 ∧
    ¬ ((500 : ℚ) ≤ 0) := by
  refine ⟨?_, ?_, by norm_num⟩
  · simp [totalNciEquity, buildMemberBreakdown, reportRevenue, reportExpenses, reportAssets,
      reportLiabilities, mappedMasterType, List.filter]
    norm_num
  · simp [runConsolidation, aggregate, mappedMasterIds, netForMaster,
      calculateFinancialStatements, accumulateBalance, zeroTotals,
      List.filter, List.filterMap, List.dedup]

/-- C5 amended: for rows carrying explicit debit and credit columns, passing
row validation forces `debit >= 0`, `credit >= 0` and exactly one of them
positive, and a row with both amounts zero or both positive always produces a
structured error. (Rows imported through the single-amount fallback escape
these checks: see the counterexample, where amount 0 is accepted as
debit = credit = 0.) -/
theorem debit_credit_rows_satisfy_double_entry :
    (∀ d c : Option ℚ, amountValidationErrors (AmountSrc.debitCredit d c) = [] →
        0 ≤ (prepareAmounts (AmountSrc.debitCredit d c)).1 ∧
        0 ≤ (prepareAmounts (AmountSrc.debitCredit d c)).2 ∧
        exactlyOnePositive (prepareAmounts (AmountSrc.debitCredit d c)).1
          (prepareAmounts (AmountSrc.debitCredit d c)).2) ∧
    (∀ d c : Option ℚ, (d.getD 0 = 0 ∧ c.getD 0 = 0) ∨ (0 < d.getD 0 ∧ 0 < c.getD 0) →
        amountValidationErrors (AmountSrc.debitCredit d c) ≠ []) := by
  constructor
  · intro d c h
    simp only [amountValidationErrors, List.append_eq_nil] at h
    obtain ⟨⟨hA, hB⟩, hC⟩ := h
    have h1 : ¬(d.getD 0 < 0 ∨ c.getD 0 < 0) := by
      intro hcond
      rw [if_pos hcond] at hA
      simp at hA
    have h2 : ¬(d.getD 0 = 0 ∧ c.getD 0 = 0) := by
      intro hcond
      rw [if_pos hcond] at hB
      simp at hB
    have h3 : ¬(d.getD 0 > 0 ∧ c.getD 0 > 0) := by
      intro hcond
      rw [if_pos hcond] at hC
      simp at hC
    push_neg at h1
    have hd : 0 ≤ d.getD 0 := h1.1
    have hc : 0 ≤ c.getD 0 := h1.2
    refine ⟨hd, hc, ?_⟩
    rcases eq_or_lt_of_le hd with hd0 | hdpos
    · rcases eq_or_lt_of_le hc with hc0 | hcpos
      · exact absurd ⟨hd0.symm, hc0.symm⟩ h2
      · exact Or.inr ⟨hcpos, hd0.symm⟩
    · rcases eq_or_lt_of_le hc with hc0 | hcpos
      · exact Or.inl ⟨hdpos, hc0.symm⟩
      · exact absurd ⟨hdpos, hcpos⟩ h3
  · intro d c h
    intro hcon
    simp only [amountValidationErrors, List.append_eq_nil] at hcon
    obtain ⟨⟨hA, hB⟩, hC⟩ := hcon
    rcases h with ⟨h1, h2⟩ | ⟨h1, h2⟩
    · rw [if_pos ⟨h1, h2⟩] at hB
      simp at hB
    · rw [if_pos ⟨h1, h2⟩] at hC
      simp at hC

/-- Witness for C5 at concrete rows: (100, 0) passes validation and satisfies
the double-entry shape; (0, 0) is rejected. -/
theorem debit_credit_rows_satisfy_double_entry_witness :
    (0 ≤ (prepareAmounts (AmountSrc.debitCredit (some 100) (some 0))).1 ∧
     0 ≤ (prepareAmounts (AmountSrc.debitCredit (some 100) (some 0))).2 ∧
     exactlyOnePositive (prepareAmounts (AmountSrc.debitCredit (some 100) (some 0))).1
       (prepareAmounts (AmountSrc.debitCredit (some 100) (some 0))).2) ∧
    amountValidationErrors (AmountSrc.debitCredit (some 0) (some 0)) ≠ [] :=
  ⟨debit_credit_rows_satisfy_double_entry.1 (some 100) (some 0) (by decide),
   debit_credit_rows_satisfy_double_entry.2 (some 0) (some 0) (by decide)⟩

/-- C5 counterexample: a row imported through the single-amount path with
amount 0 passes row validation with no error (the amount checks only run when
both debit and credit columns exist) and is prepared for insertion with
debit = 0 and credit = 0, violating the claimed XOR invariant. -/
theorem zero_amount_row_accepted_counterexample :
    rowValidationErrors ⟨some "2024-01-15", some "1000", AmountSrc.amountOnly (some 0)⟩ = [] ∧
    prepareRow [("1000", 1)] ⟨some "2024-01-15", some "1000", AmountSrc.amountOnly (some 0)⟩ =
      Except.ok (1, 0, 0) ∧
    ¬ exactlyOnePositive 0 0 := by
  refine ⟨by decide, ?_, by decide⟩
  rfl

/-- C6 amended: row-level validation errors are collected as a structured
per-row list, but any such error blocks the entire import: the endpoint
returns success_count = 0 with the error list and inserts nothing, instead of
proceeding with the valid rows. -/
theorem any_validation_error_blocks_import (lookup : List (String × Nat))
    (rows : List ImportRow) (h : validateDataframe rows ≠ []) :
    importTransactionsFlow lookup rows =
      { successCount := 0, errorCount := (validateDataframe rows).length,
        totalRows := rows.length, insertedTxns := [],
        shownErrors := validateDataframe rows } := by
  simp [importTransactionsFlow, h]

/-- Witness for C6: a one-row file whose row is missing date and account. -/
theorem any_validation_error_blocks_import_witness :
    importTransactionsFlow [] [⟨none, none, AmountSrc.noAmountCols⟩] =
      { successCount := 0, errorCount := 2, totalRows := 1, insertedTxns := [],
        shownErrors := [(2, "Date is required"), (2, "Account number is required")] } :=
  any_validation_error_blocks_import [] [⟨none, none, AmountSrc.noAmountCols⟩] (by decide)

/-- C6 counterexample: a file with one fully valid row and one invalid row
(both amounts zero) returns success_count = 0 and inserts nothing — the valid
row is blocked by the error of the other row, contradicting the claim that
the import still proceeds with the valid rows. -/
theorem valid_row_blocked_by_other_row_counterexample :
    rowValidationErrors ⟨some "2024-01-15", some "1000",
      AmountSrc.debitCredit (some 100) (some 0)⟩ = [] ∧
    importTransactionsFlow [("1000", 1)]
        [⟨some "2024-01-15", some "1000", AmountSrc.debitCredit (some 100) (some 0)⟩,
         ⟨some "2024-01-16", some "1000", AmountSrc.debitCredit (some 0) (some 0)⟩] =
      { successCount := 0, errorCount := 1, totalRows := 2, insertedTxns := [],
        shownErrors := [(3, "Either debit or credit must be greater than 0")] } := by
  exact ⟨by decide, by decide⟩

/-- C7 amended: a suggestion below the 0.8 threshold is never auto-activated
(the import leaves the mapping store unchanged and marks the account pending),
and every approval decision inserts exactly one new active mapping for the
account — but existing active mappings are never deactivated, so uniqueness of
the active mapping fails under repeated decisions (see the counterexample). -/
theorem low_confidence_never_auto_activated :
    (∀ (s : List MappingRec) (acct : Nat) (suggestion : Option Nat) (confidence : ℚ),
        confidence < 0.8 → autoMapStep s acct suggestion confidence = (s, true)) ∧
    (∀ (s : List MappingRec) (acct mid : Nat),
        (activeMappingsFor acct (applyOp s (MapOp.approve acct mid))).length =
          (activeMappingsFor acct s).length + 1) := by
  constructor
  · intro s acct suggestion confidence h
    cases suggestion with
    | none => rfl
    | some mid =>
      simp only [autoMapStep]
      rw [if_neg (not_le.mpr h)]
  · intro s acct mid
    simp [applyOp, activeMappingsFor, List.filter_append]

/-- Witness for C7: confidence 0.5 on an empty store stays pending, and one
approval adds exactly one active mapping. -/
theorem low_confidence_never_auto_activated_witness :
    autoMapStep [] 1 (some 10) 0.5 = ([], true) ∧
    (activeMappingsFor 1 (applyOp [] (MapOp.approve 1 10))).length =
      (activeMappingsFor 1 ([] : List MappingRec)).length + 1 :=
  ⟨low_confidence_never_auto_activated.1 [] 1 (some 10) 0.5 (by norm_num),
   low_confidence_never_auto_activated.2 [] 1 10⟩

/-- C7 counterexample: starting from an empty mapping store, approving two
decisions for the same company account (reachable through
`approve_mappings`, which never deactivates existing mappings) leaves TWO
active mappings for that account, violating the claimed invariant. -/
theorem two_active_mappings_reachable_counterexample :
    applyOps [MapOp.approve 1 10, MapOp.approve 1 11] [] =
      [⟨1, 10, true, "user_manual"⟩, ⟨1, 11, true, "user_manual"⟩] ∧
    (activeMappingsFor 1 (applyOps [MapOp.approve 1 10, MapOp.approve 1 11] [])).length = 2 := by
  exact ⟨rfl, rfl⟩

theorem bestMatch_all_zero (comp : AcctInfo) :
    ∀ masters : List AcctInfo,
      (∀ m ∈ masters, m.acctType = comp.acctType →
        matchScore comp.accountName m.accountName = 0) →
      bestMatch comp masters = (none, 0) := by
  intro masters
  induction masters with
  | nil => intro _; rfl
  | cons m ms ih =>
    intro hzero
    have htail : ∀ x ∈ ms, x.acctType = comp.acctType →
        matchScore comp.accountName x.accountName = 0 :=
      fun x hx => hzero x (List.mem_cons_of_mem m hx)
    have hstep : bestMatch comp (m :: ms) = bestMatch comp ms := by
      unfold bestMatch
      rw [List.foldl_cons]
      congr 1
      by_cases ht : m.acctType = comp.acctType
      · simp [ht, hzero m (List.mem_cons_self m ms) ht]
      · simp [ht]
    rw [hstep]
    exact ih htail

/-- C8: the heuristic fallback resolver never returns `None` while a same-type
master account exists; and when no same-type candidate scores above 0 it
returns the first same-type master account with the weak-match score 0.1,
whose confidence `max(0.65, min(0.70 + 0.1 * 0.3, 0.98)) = 0.73` lies in
`[0.65, 0.75)`. -/
theorem fallback_resolver_zero_overlap_behavior :
    (∀ (comp : AcctInfo) (masters : List AcctInfo),
        (∃ m ∈ masters, m.acctType = comp.acctType) →
        (fallbackSuggestion comp masters).isSome = true) ∧
    (∀ (comp : AcctInfo) (masters : List AcctInfo) (m0 : AcctInfo) (rest : List AcctInfo),
        (∀ m ∈ masters, m.acctType = comp.acctType →
          matchScore comp.accountName m.accountName = 0) →
        masters.filter (fun m => m.acctType = comp.acctType) = m0 :: rest →
        fallbackSuggestion comp masters = some (m0, confidenceOf 0.1)) ∧
    confidenceOf 0.1 = 0.73 ∧ (0.65 : ℚ) ≤ 0.73 ∧ (0.73 : ℚ) < 0.75 := by
  refine ⟨?_, ?_, ?_, by norm_num, by norm_num⟩
  · rintro comp masters ⟨m, hm, ht⟩
    have hfilter : masters.filter (fun m => m.acctType = comp.acctType) ≠ [] := by
      intro hnil
      have hmem : m ∈ masters.filter (fun m => m.acctType = comp.acctType) :=
        List.mem_filter.mpr ⟨hm, by simp [ht]⟩
      rw [hnil] at hmem
      simp at hmem
    cases hfe : masters.filter (fun m => m.acctType = comp.acctType) with
    | nil => exact absurd hfe hfilter
    | cons m0 rest =>
      by_cases hcond : (bestMatch comp masters).1 = none ∨ (bestMatch comp masters).2 = 0
      · simp [fallbackSuggestion, fallbackMatch, hfe, hcond]
      · push_neg at hcond
        obtain ⟨x, hx⟩ := Option.ne_none_iff_exists'.mp hcond.1
        simp [fallbackSuggestion, fallbackMatch, hfe, hcond, hx]
  · intro comp masters m0 rest hzero hfe
    have hbm := bestMatch_all_zero comp masters hzero
    simp [fallbackSuggestion, fallbackMatch, hbm, hfe]
  · norm_num [confidenceOf, min_def, max_def]

theorem matchScore_widget_rent : matchScore "Widget Costs" "Rent" = 0 := by
  have h2 : (wordSet "Widget Costs").filter (fun w => w ∈ wordSet "Rent") = [] := by decide
  have h3 : strContains (lowerStr "Rent") (lowerStr "Widget Costs") = false := by decide
  have h4 : strContains (lowerStr "Widget Costs") (lowerStr "Rent") = false := by decide
  have h5 : (wordSet "Widget Costs").filter (fun w =>
      match keywordAssociations.lookup w with
      | some assocs => assocs.any (fun a => strContains (lowerStr "Rent") a)
      | none => false) = [] := by decide
  simp only [matchScore, assocBoost, h2, h3, h4, h5]
  norm_num

/-- Witness for C8 at the example given in the claim: entity account "Widget Costs"
(Expense) against a master chart whose only Expense account is "Rent" — zero
keyword overlap — resolves to "Rent" with confidence 0.73. -/
theorem fallback_resolver_zero_overlap_behavior_witness :
    fallbackSuggestion ⟨1, "5100", "Widget Costs", AccountType.expense⟩
        [⟨2, "6000", "Rent", AccountType.expense⟩] =
      some (⟨2, "6000", "Rent", AccountType.expense⟩, confidenceOf 0.1) :=
  fallback_resolver_zero_overlap_behavior.2.1
    ⟨1, "5100", "Widget Costs", AccountType.expense⟩
    [⟨2, "6000", "Rent", AccountType.expense⟩]
    ⟨2, "6000", "Rent", AccountType.expense⟩ []
    (by
      intro m hm ht
      have hm2 : m = ⟨2, "6000", "Rent", AccountType.expense⟩ := by
        simpa using hm
      rw [hm2]
      exact matchScore_widget_rent)
    (by decide)

/-- C9 amended: transactions of entity accounts with no active mapping
contribute nothing to any aggregated balance nor to any published field of the
run; the consolidation output itself carries no unmapped-account count (see
the counterexample: outputs are identical across different unmapped counts). -/
theorem unmapped_transactions_contribute_nothing
    (am : Nat → Option Nat) (mt : Nat → AccountType) (companyIds : List Nat)
    (year period : Nat) (txns extra : List Txn)
    (h : ∀ t ∈ extra, am t.accountId = none) :
    aggregate am mt (txns ++ extra) = aggregate am mt txns ∧
    runConsolidation am mt companyIds year period (txns ++ extra) =
      runConsolidation am mt companyIds year period txns := by
  have hagg : ∀ l e : List Txn, (∀ t ∈ e, am t.accountId = none) →
      aggregate am mt (l ++ e) = aggregate am mt l := by
    intro l e he
    have hm : mappedMasterIds am (l ++ e) = mappedMasterIds am l := by
      unfold mappedMasterIds
      rw [List.filterMap_append]
      have hnil : e.filterMap (fun t => am t.accountId) = [] :=
        List.filterMap_eq_nil_iff.mpr (fun t ht => he t ht)
      rw [hnil, List.append_nil]
    have hn : ∀ mid, netForMaster am (l ++ e) mid = netForMaster am l mid := by
      intro mid
      unfold netForMaster
      rw [List.filter_append]
      have hnil : e.filter (fun t => am t.accountId = some mid) = [] := by
        rw [List.filter_eq_nil_iff]
        intro t ht
        simp [he t ht]
      rw [hnil, List.append_nil]
    unfold aggregate
    rw [hm]
    simp only [hn]
  refine ⟨hagg txns extra h, ?_⟩
  have key : aggregate am mt ((txns ++ extra).filter
        (fun t => t.companyId ∈ companyIds ∧ t.fiscalYear = year ∧ t.fiscalPeriod = period)) =
      aggregate am mt (txns.filter
        (fun t => t.companyId ∈ companyIds ∧ t.fiscalYear = year ∧ t.fiscalPeriod = period)) := by
    rw [List.filter_append]
    exact hagg _ _ (fun t ht => h t (List.mem_of_mem_filter ht))
  simp only [runConsolidation, key]

/-- Witness for C9: appending a transaction on the unmapped account 2 changes
neither the aggregate nor the run output. -/
theorem unmapped_transactions_contribute_nothing_witness :
    aggregate (fun a => if a = 1 then some 10 else none) (fun _ => AccountType.asset)
        ([⟨1, 1, 100, 0, 2024, 1⟩] ++ [⟨1, 2, 0, 100, 2024, 1⟩]) =
      aggregate (fun a => if a = 1 then some 10 else none) (fun _ => AccountType.asset)
        [⟨1, 1, 100, 0, 2024, 1⟩] ∧
    runConsolidation (fun a => if a = 1 then some 10 else none) (fun _ => AccountType.asset)
        [1] 2024 1 ([⟨1, 1, 100, 0, 2024, 1⟩] ++ [⟨1, 2, 0, 100, 2024, 1⟩]) =
      runConsolidation (fun a => if a = 1 then some 10 else none) (fun _ => AccountType.asset)
        [1] 2024 1 [⟨1, 1, 100, 0, 2024, 1⟩] :=
  unmapped_transactions_contribute_nothing (fun a => if a = 1 then some 10 else none)
    (fun _ => AccountType.asset) [1] 2024 1 [⟨1, 1, 100, 0, 2024, 1⟩]
    [⟨1, 2, 0, 100, 2024, 1⟩] (by decide)

/-- C9 counterexample: two inputs that differ in their number of unmapped
accounts (0 versus 1) produce literally identical consolidation outputs, so no
field of the output reports `unmapped_account_count`; the engine merely skips
unmapped transactions without counting them. -/
theorem run_output_ignores_unmapped_counterexample :
    runConsolidation (fun a => if a = 3 then some 30 else none) (fun _ => AccountType.asset)
        [1] 2024 1 [⟨1, 3, 250, 0, 2024, 1⟩, ⟨1, 4, 0, 250, 2024, 1⟩] =
      runConsolidation (fun a => if a = 3 then some 30 else none) (fun _ => AccountType.asset)
        [1] 2024 1 [⟨1, 3, 250, 0, 2024, 1⟩] ∧
    unmappedAccountCount (fun a => if a = 3 then some 30 else none)
        [⟨1, 3, 250, 0, 2024, 1⟩, ⟨1, 4, 0, 250, 2024, 1⟩] = 1 ∧
    unmappedAccountCount (fun a => if a = 3 then some 30 else none)
        [⟨1, 3, 250, 0, 2024, 1⟩] = 0 := by
  refine ⟨?_, by decide, by decide⟩
  simp [runConsolidation, aggregate, mappedMasterIds, netForMaster,
    calculateFinancialStatements, accumulateBalance, zeroTotals,
    List.filter, List.filterMap, List.dedup]
